import Mathlib

/-!
Shallow embedding of the Gyxius/backend event-coordination service
(src/main.py, SQLite dialect branch; the Postgres branch differs only in
placeholder syntax and boolean encoding, not in behaviour).  Database
tables are embedded as Lean lists of row structures, kept in storage
order; AUTOINCREMENT ids are carried as explicit counters.  The external
bcrypt collaborator (pwd_context.verify) is abstracted as a Boolean
verification function passed in as a parameter.
-/

/-- A row of the users table: id, username (stored casing), nullable
password hash.  Mirrors the columns read by the login handler. -/
structure UserRow where
  id : Nat
  username : String
  password_hash : Option String
deriving Repr, DecidableEq

/-- A row of the events table, restricted to the columns the embedded
handlers read or write (src/main.py table creation, lines 181-204). -/
structure EventRow where
  id : Nat
  name : String
  description : String
  location : String
  venue : String
  address : String
  coordinates : Option String
  date : String
  time : String
  category : String
  languages : List String
  is_public : Bool
  event_type : String
  capacity : Option Int
  image_url : String
  created_by : Option String
  is_featured : Bool
  template_event_id : Option Nat
deriving Repr, DecidableEq

/-- A row of the event_participants table; primary key (event_id, username),
is_host stored as 0/1 (src/main.py lines 226-232). -/
structure ParticipantRow where
  event_id : Nat
  username : String
  is_host : Bool
deriving Repr, DecidableEq

/-- A row of the follows table; primary key (user1, user2); user1 follows
user2 (src/main.py lines 206-211). -/
structure FollowRow where
  user1 : String
  user2 : String
deriving Repr, DecidableEq

/-- A row of the chat_messages table (src/main.py lines 247-253). -/
structure ChatRow where
  id : Nat
  event_id : Nat
  username : String
  message : String
deriving Repr, DecidableEq

/-- A row of the notifications table; user_id is a username string in this
schema (src/main.py lines 258-265). -/
structure NotifRow where
  id : Nat
  user_id : String
  event_id : Nat
  message_id : Nat
  is_read : Bool
deriving Repr, DecidableEq

/-- The relational state touched by the embedded handlers, with explicit
counters for the AUTOINCREMENT id columns. -/
structure DB where
  users : List UserRow
  events : List EventRow
  participants : List ParticipantRow
  follows : List FollowRow
  chat_messages : List ChatRow
  notifications : List NotifRow
  next_event_id : Nat
  next_message_id : Nat
  next_notification_id : Nat
deriving Repr, DecidableEq

/-- An empty database with all id counters at 1. -/
def DB.empty : DB :=
  { users := [], events := [], participants := [], follows := [],
    chat_messages := [], notifications := [],
    next_event_id := 1, next_message_id := 1, next_notification_id := 1 }

/-- GET /api/follows/USERNAME (src/main.py lines 1302-1314): the SQL is a
UNION of SELECT user2 WHERE user1 = name with SELECT user1 WHERE
user2 = name, so the returned list mixes both edge directions; UNION
removes duplicates, modelled with List.dedup. -/
def get_follows (db : DB) (username : String) : List String :=
  (((db.follows.filter (fun r => r.user1 == username)).map (fun r => r.user2)) ++
   ((db.follows.filter (fun r => r.user2 == username)).map (fun r => r.user1))).dedup

/-- POST /api/follows (src/main.py lines 1316-1334): INSERT OR IGNORE on
the (user1, user2) primary key, appending in storage order. -/
def add_follow (db : DB) (user1 user2 : String) : DB :=
  if db.follows.any (fun r => r.user1 == user1 && r.user2 == user2) then db
  else { db with follows := db.follows ++ [{ user1 := user1, user2 := user2 }] }

/-- POST /api/events/EVENT_ID/join (src/main.py lines 1067-1088): INSERT
OR IGNORE of a non-host participant row; the handler never queries the
events table and never raises, so it is a total function on states. -/
def join_full_event (db : DB) (event_id : Nat) (username : String) : DB :=
  if db.participants.any (fun r => r.event_id == event_id && r.username == username) then db
  else { db with participants :=
          db.participants ++ [{ event_id := event_id, username := username, is_host := false }] }

/-- ASCII lowercasing as applied by both Python str.lower and SQL lower
to the usernames in play, written over the character list so that the
kernel can evaluate it on literals. -/
def lowerStr (s : String) : String := ⟨s.data.map Char.toLower⟩

/-- Error outcomes of the login handler, surfaced as HTTP 404 and 401. -/
inductive LoginErr where
  | notFound
  | unauthorized
deriving Repr, DecidableEq

/-- POST /login (src/main.py lines 459-480): case-insensitive username
lookup (fetchone = first matching row); 404 on no match; 401 when the
stored hash is NULL or empty (Python falsiness of not password_hash) or
when the external verifier rejects; on success returns the id and the
canonically stored username casing.  The bcrypt collaborator is the
verify parameter. -/
def login (verify : String → String → Bool) (db : DB) (username password : String) :
    Except LoginErr (Nat × String) :=
  match db.users.find? (fun r => lowerStr r.username == lowerStr username) with
  | none => .error .notFound
  | some row =>
    match row.password_hash with
    | none => .error .unauthorized
    | some h =>
      if h.isEmpty then .error .unauthorized
      else if verify password h then .ok (row.id, row.username)
      else .error .unauthorized

/-- The request body of PUT /api/events/EVENT_ID and POST /api/events:
the FullEvent Pydantic model (src/main.py lines 756-773). -/
structure FullEvent where
  name : String
  description : String := ""
  location : String := ""
  venue : String := ""
  address : String := ""
  coordinates : Option String := none
  date : String := ""
  time : String := ""
  category : String := ""
  languages : List String := []
  is_public : Bool := true
  event_type : String := "custom"
  capacity : Option Int := none
  image_url : String := ""
  created_by : Option String := none
  is_featured : Bool := false
  template_event_id : Option Nat := none
deriving Repr, DecidableEq

/-- Outcomes of the update handler other than success: 404, 403, and the
unhandled Python AttributeError raised by None.lower() when the request
carries no created_by while the stored creator differs. -/
inductive UpdateErr where
  | notFound
  | forbidden
  | noneLower
deriving Repr, DecidableEq

/-- The UPDATE statement of the update handler (src/main.py lines
1120-1185): only these twelve fields are written; is_public, created_by,
is_featured, event_type and template_event_id are left untouched. -/
def apply_event_update (e : EventRow) (req : FullEvent) : EventRow :=
  { e with
    name := req.name, description := req.description, location := req.location,
    venue := req.venue, address := req.address, coordinates := req.coordinates,
    date := req.date, time := req.time, category := req.category,
    languages := req.languages, capacity := req.capacity, image_url := req.image_url }

/-- PUT /api/events/EVENT_ID (src/main.py lines 1100-1189): 404 when the
id has no row; then the permission test
`event_creator != event.created_by and event.created_by.lower() != "admin"`
with Python short-circuiting: when the stored creator equals the request
created_by (also when both are NULL) the update proceeds; otherwise a
NULL request created_by raises AttributeError (noneLower), a
case-insensitive admin proceeds, and anything else is 403. -/
def update_event (db : DB) (event_id : Nat) (event : FullEvent) : Except UpdateErr DB :=
  match db.events.find? (fun e => e.id == event_id) with
  | none => .error .notFound
  | some row =>
    if row.created_by == event.created_by then
      .ok { db with events :=
              db.events.map (fun e => if e.id == event_id then apply_event_update e event else e) }
    else
      match event.created_by with
      | none => .error .noneLower
      | some u =>
        if lowerStr u == "admin" then
          .ok { db with events :=
                  db.events.map (fun e => if e.id == event_id then apply_event_update e event else e) }
        else .error .forbidden

/-- The notification fan-out loop of the chat handler: one row per
recipient, ids assigned sequentially from the notifications counter. -/
def fanout (event_id message_id : Nat) (next_id : Nat) : List String → List NotifRow
  | [] => []
  | u :: rest =>
    { id := next_id, user_id := u, event_id := event_id,
      message_id := message_id, is_read := false } :: fanout event_id message_id (next_id + 1) rest

/-- POST /api/chat/EVENT_ID (src/main.py lines 1356-1396): append the
chat row, read all participant rows of the event, drop the sender, and
insert one unread notification per remaining participant carrying the
new message id.  Returns the new state and notifications_created. -/
def send_chat_message (db : DB) (event_id : Nat) (username message : String) : DB × Nat :=
  let mid := db.next_message_id
  let recips := ((db.participants.filter
      (fun p => p.event_id == event_id && p.username != username)).map
      (fun p => p.username))
  let notifs := fanout event_id mid db.next_notification_id recips
  ({ db with
      chat_messages := db.chat_messages ++
        [{ id := mid, event_id := event_id, username := username, message := message }],
      notifications := db.notifications ++ notifs,
      next_message_id := mid + 1,
      next_notification_id := db.next_notification_id + recips.length },
   recips.length)

/-- The by_event aggregation of GET /api/notifications/USERNAME
(src/main.py lines 1398-1426): the unread count of one user for one
event. -/
def unread_count (db : DB) (username : String) (event_id : Nat) : Nat :=
  db.notifications.countP
    (fun n => n.user_id == username && n.event_id == event_id && n.is_read == false)

/-- POST /api/notifications/USERNAME/mark-read (src/main.py lines
1428-1454): with an event_id the UPDATE matches that user+event pair,
without one it matches all of the user's rows; cursor.rowcount counts
every matched row (SQLite counts a row even when is_read was already 1).
Returns the new state and the reported count. -/
def mark_notifications_read (db : DB) (username : String) (event_id : Option Nat) : DB × Nat :=
  match event_id with
  | some eid =>
    ({ db with notifications :=
        db.notifications.map (fun n =>
          if n.user_id == username && n.event_id == eid then { n with is_read := true } else n) },
     db.notifications.countP (fun n => n.user_id == username && n.event_id == eid))
  | none =>
    ({ db with notifications :=
        db.notifications.map (fun n =>
          if n.user_id == username then { n with is_read := true } else n) },
     db.notifications.countP (fun n => n.user_id == username))

/-- Modelled from the spec: the event rows handled by the later backend
snapshot that carries the end_time column.  That snapshot is not under
src/ (src/main.py's FullEvent has no end_time field); only its tests
(test_cross_midnight.py, test_end_time_admin.py, test_event_features.py)
ship with the repository.  Restricted to the fields the time-validation
claim observes. -/
structure TimedEvent where
  id : Nat
  name : String
  time : String
  end_time : String
deriving Repr, DecidableEq

/-- The InvalidInput failure of event creation, surfaced as HTTP 400. -/
inductive CreateErr where
  | invalidInput
deriving Repr, DecidableEq

/-- Modelled from the spec: creation-time validation of time and
end_time, absent from src/main.py.  Per spec section 4.2, when both are
present they must differ (equal values are rejected with InvalidInput)
and any other pair, a cross-midnight one included, is stored unchanged.
Presence is non-emptiness since both fields default to the empty
string. -/
def create_event_with_times (events : List TimedEvent) (next_id : Nat)
    (name time end_time : String) : Except CreateErr (List TimedEvent) :=
  if !time.isEmpty && !end_time.isEmpty && time == end_time then .error .invalidInput
  else .ok (events ++ [{ id := next_id, name := name, time := time, end_time := end_time }])

/-- Reading back the stored time pair of one event, the projection of
the event-detail read used by the round-trip claim. -/
def get_event_times (events : List TimedEvent) (id : Nat) : Option (String × String) :=
  (events.find? (fun e => e.id == id)).map (fun e => (e.time, e.end_time))

/-- The numeric value in minutes of an HH:MM clock string, used to state
which of two clock strings is numerically earlier. -/
def digitVal (c : Char) : Option Nat :=
  if c.isDigit then some (c.toNat - 48) else none

/-- Minutes after midnight denoted by a five-character HH:MM string. -/
def timeToMinutes (s : String) : Option Nat :=
  match s.toList with
  | [h1, h2, ':', m1, m2] =>
    match digitVal h1, digitVal h2, digitVal m1, digitVal m2 with
    | some a, some b, some c, some d => some ((a * 10 + b) * 60 + (c * 10 + d))
    | _, _, _, _ => none
  | _ => none

/-- Modelled from the spec: the visibility columns of the later backend
snapshot carrying is_archived.  src/main.py predates that column (only
migrate_add_is_archived.py and test_event_features.py reference it). -/
structure ListedEventRow where
  id : Nat
  is_public : Bool
  is_archived : Bool
deriving Repr, DecidableEq

/-- Modelled from the spec: the event-listing operation of the later
snapshot, absent from src/main.py (whose handler filters on is_public
only).  Per spec section 4.2 it returns all rows where is_public is
true and, unless include_archived is requested, is_archived is false. -/
def listEvents (events : List ListedEventRow) (include_archived : Bool) : List ListedEventRow :=
  events.filter (fun e => e.is_public && (include_archived || !e.is_archived))

/-! Helper lemmas shared by several claim theorems. -/

/-- find? skips a prefix on which the predicate is everywhere false. -/
theorem find?_append_of_forall_false {α : Type} (p : α → Bool) (l1 l2 : List α)
    (h : ∀ a ∈ l1, p a = false) : (l1 ++ l2).find? p = l2.find? p := by
  induction l1 with
  | nil => rfl
  | cons a t ih =>
    have ha : p a = false := h a (List.mem_cons_self a t)
    simp only [List.cons_append, List.find?, ha]
    exact ih (fun b hb => h b (List.mem_cons_of_mem a hb))

/-- C1: evaluating the source get_follows on the Mitsu/Zine scenario.
After the single directed insert follow(Mitsu, Zine) on an empty follows
table, the follows list of Zine already contains Mitsu, because the
handler UNIONs both edge directions; the repository's own test
test_mitsu_zine_follow.py expects Zine to have zero follows at this
point, so the handler contradicts the test (and the claim). -/
theorem get_follows_merges_directions_on_mitsu_zine :
    get_follows (add_follow DB.empty "Mitsu" "Zine") "Zine" = ["Mitsu"] ∧
    get_follows (add_follow DB.empty "Mitsu" "Zine") "Mitsu" = ["Zine"] := by
  constructor <;> rfl

/-- C3: membership in the event listing is exactly publicness together
with the archived filter: an event is returned iff it is stored, public,
and either archived events were requested or it is not archived.  In
particular the default listing returns exactly the rows with is_public
true and is_archived false, and an archived public row appears exactly
when include_archived is passed. -/
theorem listEvents_membership (events : List ListedEventRow) (b : Bool) (e : ListedEventRow) :
    e ∈ listEvents events b ↔
      e ∈ events ∧ e.is_public = true ∧ (b = true ∨ e.is_archived = false) := by
  simp [listEvents, List.mem_filter]

/-- C2: event creation rejects an equal present start and end time with
InvalidInput, while a request whose end time is numerically earlier than
its start time (cross-midnight) succeeds and both strings round-trip
unchanged through a subsequent read of the event. -/
theorem create_event_time_validation (events : List TimedEvent) (nid : Nat)
    (name t e : String) :
    (t.isEmpty = false → e.isEmpty = false → t = e →
      create_event_with_times events nid name t e = .error .invalidInput) ∧
    (∀ mt me, timeToMinutes t = some mt → timeToMinutes e = some me → me < mt →
      (∀ r ∈ events, r.id ≠ nid) →
      ∃ events2, create_event_with_times events nid name t e = .ok events2 ∧
        get_event_times events2 nid = some (t, e)) := by
  constructor
  · intro ht he hte
    simp [create_event_with_times, ht, he, hte]
  · intro mt me hmt hme hlt hfresh
    have hne : (t == e) = false := by
      rw [beq_eq_false_iff_ne]
      intro hcontra
      rw [hcontra, hme] at hmt
      injection hmt with hmm
      omega
    refine ⟨events ++ [{ id := nid, name := name, time := t, end_time := e }], ?_, ?_⟩
    · simp [create_event_with_times, hne]
    · unfold get_event_times
      rw [find?_append_of_forall_false _ events _ (fun r hr => by simp [hfresh r hr])]
      simp [List.find?]

/-- Witness for the time-validation theorem: a same-time request is
rejected, and the cross-midnight request 22:30 to 02:00 is accepted and
reads back unchanged. -/
theorem create_event_time_validation_witness :
    create_event_with_times [] 1 "A" "18:00" "18:00" = .error .invalidInput ∧
    ∃ events2, create_event_with_times [] 1 "B" "22:30" "02:00" = .ok events2 ∧
      get_event_times events2 1 = some ("22:30", "02:00") := by
  constructor
  · exact (create_event_time_validation [] 1 "A" "18:00" "18:00").1 (by decide) (by decide) rfl
  · exact (create_event_time_validation [] 1 "B" "22:30" "02:00").2 1350 120
      (by decide) (by decide) (by decide) (by simp)

/-- A sample stored event row used by concrete witness states: every
field not under test takes a neutral value. -/
def sampleEvent (id : Nat) (creator : Option String) : EventRow :=
  { id := id, name := "Dinner", description := "", location := "", venue := "",
    address := "", coordinates := none, date := "", time := "", category := "",
    languages := [], is_public := true, event_type := "custom", capacity := none,
    image_url := "", created_by := creator, is_featured := false,
    template_event_id := none }

/-- A sample update request used by concrete witness states. -/
def sampleReq (creator : Option String) : FullEvent :=
  { name := "Dinner", created_by := creator }

/-- C5: for an existing event the update handler returns Forbidden
exactly when the acting user (the created_by of the request body) is
neither the stored creator nor a case-insensitive admin, succeeds for
the stored creator and for admin, and returns NotFound when no event row
has the requested id. -/
theorem update_event_permission_check (db : DB) (eid : Nat) (req : FullEvent) (X : String)
    (hreq : req.created_by = some X) :
    (∀ row, db.events.find? (fun ev => ev.id == eid) = some row →
      ((row.created_by ≠ some X → lowerStr X ≠ "admin" →
          update_event db eid req = .error .forbidden) ∧
       (row.created_by = some X → ∃ db2, update_event db eid req = .ok db2) ∧
       (lowerStr X = "admin" → ∃ db2, update_event db eid req = .ok db2))) ∧
    (db.events.find? (fun ev => ev.id == eid) = none →
      update_event db eid req = .error .notFound) := by
  constructor
  · intro row hfind
    refine ⟨?_, ?_, ?_⟩
    · intro hne hadmin
      simp [update_event, hfind, hreq, hne, hadmin]
    · intro heq
      exact ⟨{ db with events := db.events.map (fun e2 => if e2.id == eid then apply_event_update e2 req else e2) }, by simp [update_event, hfind, hreq, heq]⟩
    · intro hadmin
      by_cases heq : row.created_by = some X
      · exact ⟨{ db with events := db.events.map (fun e2 => if e2.id == eid then apply_event_update e2 req else e2) }, by simp [update_event, hfind, hreq, heq]⟩
      · exact ⟨{ db with events := db.events.map (fun e2 => if e2.id == eid then apply_event_update e2 req else e2) }, by simp [update_event, hfind, hreq, heq, hadmin]⟩
  · intro hfind
    simp [update_event, hfind]

/-- Witness for the update permission theorem on a one-event state with
creator alice: bob is rejected with Forbidden, alice and a
capitalised Admin succeed, and a missing id gives NotFound. -/
theorem update_event_permission_check_witness :
    update_event { DB.empty with events := [sampleEvent 1 (some "alice")] } 1
        (sampleReq (some "bob")) = .error .forbidden ∧
    (∃ db2, update_event { DB.empty with events := [sampleEvent 1 (some "alice")] } 1
        (sampleReq (some "alice")) = .ok db2) ∧
    (∃ db2, update_event { DB.empty with events := [sampleEvent 1 (some "alice")] } 1
        (sampleReq (some "Admin")) = .ok db2) ∧
    update_event { DB.empty with events := [sampleEvent 1 (some "alice")] } 7
        (sampleReq (some "bob")) = .error .notFound := by
  refine ⟨?_, ?_, ?_, ?_⟩
  · exact (((update_event_permission_check
      { DB.empty with events := [sampleEvent 1 (some "alice")] } 1
      (sampleReq (some "bob")) "bob" rfl).1 (sampleEvent 1 (some "alice")) rfl).1)
      (by decide) (by decide)
  · exact (((update_event_permission_check
      { DB.empty with events := [sampleEvent 1 (some "alice")] } 1
      (sampleReq (some "alice")) "alice" rfl).1 (sampleEvent 1 (some "alice")) rfl).2.1) rfl
  · exact (((update_event_permission_check
      { DB.empty with events := [sampleEvent 1 (some "alice")] } 1
      (sampleReq (some "Admin")) "Admin" rfl).1 (sampleEvent 1 (some "alice")) rfl).2.2)
      (by decide)
  · exact (update_event_permission_check
      { DB.empty with events := [sampleEvent 1 (some "alice")] } 7
      (sampleReq (some "bob")) "bob" rfl).2 rfl

/-- C9: the permission check is total only for a present acting user.
For an existing event whose stored creator is non-null, a request with a
null created_by hits None.lower() and raises (modelled as the noneLower
outcome) instead of returning Forbidden; for an event whose stored
creator is null, the same null request passes the equality test and the
update succeeds. -/
theorem update_event_null_acting_user (db : DB) (eid : Nat) (req : FullEvent)
    (hreq : req.created_by = none) :
    (∀ row c, db.events.find? (fun ev => ev.id == eid) = some row →
      row.created_by = some c → update_event db eid req = .error .noneLower) ∧
    (∀ row, db.events.find? (fun ev => ev.id == eid) = some row →
      row.created_by = none → ∃ db2, update_event db eid req = .ok db2) := by
  constructor
  · intro row c hfind hcreator
    simp [update_event, hfind, hreq, hcreator]
  · intro row hfind hcreator
    exact ⟨{ db with events := db.events.map (fun e2 => if e2.id == eid then apply_event_update e2 req else e2) }, by simp [update_event, hfind, hreq, hcreator]⟩

/-- Witness for the null-acting-user theorem: with stored creator alice
a null request errors with the modelled AttributeError, with a null
stored creator it succeeds. -/
theorem update_event_null_acting_user_witness :
    update_event { DB.empty with events := [sampleEvent 1 (some "alice")] } 1
        (sampleReq none) = .error .noneLower ∧
    ∃ db2, update_event { DB.empty with events := [sampleEvent 1 none] } 1
        (sampleReq none) = .ok db2 := by
  constructor
  · exact (update_event_null_acting_user
      { DB.empty with events := [sampleEvent 1 (some "alice")] } 1
      (sampleReq none) rfl).1 (sampleEvent 1 (some "alice")) "alice" rfl rfl
  · exact (update_event_null_acting_user
      { DB.empty with events := [sampleEvent 1 none] } 1
      (sampleReq none) rfl).2 (sampleEvent 1 none) rfl rfl

/-- C7: login looks the username up case-insensitively; when a row
matches, a correct password yields the id and the canonically stored
username casing (the row's own username, not the caller's spelling), a
missing hash or a failing verification yields Unauthorized, and when no
row matches case-insensitively the result is NotFound. -/
theorem login_canonical_casing (verify : String → String → Bool) (db : DB)
    (uname pwd : String) :
    (∀ row, db.users.find? (fun r => lowerStr r.username == lowerStr uname) = some row →
      ((∀ h, row.password_hash = some h → h.isEmpty = false → verify pwd h = true →
          login verify db uname pwd = .ok (row.id, row.username)) ∧
       (row.password_hash = none → login verify db uname pwd = .error .unauthorized) ∧
       (∀ h, row.password_hash = some h → verify pwd h = false →
          login verify db uname pwd = .error .unauthorized))) ∧
    (db.users.find? (fun r => lowerStr r.username == lowerStr uname) = none →
      login verify db uname pwd = .error .notFound) := by
  constructor
  · intro row hfind
    refine ⟨?_, ?_, ?_⟩
    · intro h hhash hne hver
      simp [login, hfind, hhash, hne, hver]
    · intro hhash
      simp [login, hfind, hhash]
    · intro h hhash hver
      simp [login, hfind, hhash, hver]
  · intro hfind
    simp [login, hfind]

/-- A one-user database with the stored casing Bob and hash secret. -/
def bobDB : DB :=
  { DB.empty with users := [{ id := 1, username := "Bob", password_hash := some "secret" }] }

/-- A one-user database whose user Ann has no stored password hash. -/
def annDB : DB :=
  { DB.empty with users := [{ id := 2, username := "Ann", password_hash := none }] }

/-- Witness for the login theorem: the stored user Bob is found from
the spelling bOB and the response carries the stored casing Bob; an
unknown name is NotFound; a wrong password and a missing hash are
Unauthorized. -/
theorem login_canonical_casing_witness :
    login (fun p h => p == h) bobDB "bOB" "secret" = .ok (1, "Bob") ∧
    login (fun p h => p == h) bobDB "zed" "secret" = .error .notFound ∧
    login (fun p h => p == h) bobDB "bOB" "wrong" = .error .unauthorized ∧
    login (fun p h => p == h) annDB "ann" "pw" = .error .unauthorized := by
  refine ⟨?_, ?_, ?_, ?_⟩
  · exact ((login_canonical_casing (fun p h => p == h) bobDB "bOB" "secret").1
      { id := 1, username := "Bob", password_hash := some "secret" }
      (by decide)).1 "secret" rfl (by decide) (by decide)
  · exact (login_canonical_casing (fun p h => p == h) bobDB "zed" "secret").2 (by decide)
  · exact ((login_canonical_casing (fun p h => p == h) bobDB "bOB" "wrong").1
      { id := 1, username := "Bob", password_hash := some "secret" }
      (by decide)).2.2 "secret" rfl (by decide)
  · exact ((login_canonical_casing (fun p h => p == h) annDB "ann" "pw").1
      { id := 2, username := "Ann", password_hash := none }
      (by decide)).2.1 rfl

/-- After a join, a participant row with the joined key is present. -/
theorem join_full_event_mem (db : DB) (eid : Nat) (u : String) :
    (join_full_event db eid u).participants.any
      (fun r => r.event_id == eid && r.username == u) = true := by
  unfold join_full_event
  by_cases hc : db.participants.any (fun r => r.event_id == eid && r.username == u) = true
  · simp [hc]
  · rw [if_neg hc]
    simp [List.any_append]

/-- C6: joining an event is idempotent.  A second join with the same
event id and username is a no-op on the state, and starting from a state
with no row for the pair, the double join leaves exactly one participant
row for the pair and that row is a non-host row. -/
theorem join_full_event_idempotent (db : DB) (eid : Nat) (u : String) :
    join_full_event (join_full_event db eid u) eid u = join_full_event db eid u ∧
    (db.participants.countP (fun p => p.event_id == eid && p.username == u) = 0 →
      ((join_full_event (join_full_event db eid u) eid u).participants.countP
          (fun p => p.event_id == eid && p.username == u) = 1 ∧
       ∀ p ∈ (join_full_event (join_full_event db eid u) eid u).participants,
         (p.event_id == eid && p.username == u) = true → p.is_host = false)) := by
  have hidem : join_full_event (join_full_event db eid u) eid u = join_full_event db eid u := by
    conv_lhs => rw [join_full_event]
    rw [if_pos (join_full_event_mem db eid u)]
  refine ⟨hidem, ?_⟩
  intro h0
  have hany : db.participants.any (fun r => r.event_id == eid && r.username == u) = false := by
    rw [List.any_eq_false]
    intro p hp
    have := List.countP_eq_zero.mp h0 p hp
    simpa using this
  have hjoin : (join_full_event db eid u).participants =
      db.participants ++ [{ event_id := eid, username := u, is_host := false }] := by
    unfold join_full_event
    rw [if_neg (by simp [hany])]
  constructor
  · rw [hidem, hjoin, List.countP_append, h0]
    simp
  · intro p hp hpred
    rw [hidem, hjoin] at hp
    rcases List.mem_append.mp hp with hmem | hmem
    · exact absurd hpred (by simp [List.countP_eq_zero.mp h0 p hmem])
    · simp only [List.mem_singleton] at hmem
      rw [hmem]

/-- Witness for the join idempotence theorem on the empty state. -/
theorem join_full_event_idempotent_witness :
    join_full_event (join_full_event DB.empty 5 "zoe") 5 "zoe" =
      join_full_event DB.empty 5 "zoe" ∧
    (join_full_event (join_full_event DB.empty 5 "zoe") 5 "zoe").participants.countP
      (fun p => p.event_id == 5 && p.username == "zoe") = 1 :=
  ⟨(join_full_event_idempotent DB.empty 5 "zoe").1,
   ((join_full_event_idempotent DB.empty 5 "zoe").2 rfl).1⟩

/-- C10: the join handler performs no event-existence check and cannot
fail: even when no event row carries the requested id, the join inserts
a participant row for the pair while the events table stays unchanged,
so a participant row referencing a nonexistent event is a reachable
state. -/
theorem join_full_event_no_existence_check (db : DB) (eid : Nat) (u : String)
    (h : ∀ ev ∈ db.events, ev.id ≠ eid) :
    (∃ p ∈ (join_full_event db eid u).participants, p.event_id = eid ∧ p.username = u) ∧
    (join_full_event db eid u).events = db.events ∧
    (∀ ev ∈ (join_full_event db eid u).events, ev.id ≠ eid) := by
  have hev : (join_full_event db eid u).events = db.events := by
    unfold join_full_event
    by_cases hc : db.participants.any (fun r => r.event_id == eid && r.username == u) = true
    · rw [if_pos hc]
    · rw [if_neg hc]
  refine ⟨?_, hev, ?_⟩
  · have := join_full_event_mem db eid u
    rcases List.any_eq_true.mp this with ⟨p, hp, hpred⟩
    simp only [Bool.and_eq_true, beq_iff_eq] at hpred
    exact ⟨p, hp, hpred⟩
  · rw [hev]
    exact h

/-- Witness for the no-existence-check theorem: joining event 9 on the
empty database, which has no events at all. -/
theorem join_full_event_no_existence_check_witness :
    (∃ p ∈ (join_full_event DB.empty 9 "kai").participants,
        p.event_id = 9 ∧ p.username = "kai") ∧
    (join_full_event DB.empty 9 "kai").events = [] :=
  ⟨(join_full_event_no_existence_check DB.empty 9 "kai" (by simp [DB.empty])).1,
   (join_full_event_no_existence_check DB.empty 9 "kai" (by simp [DB.empty])).2.1⟩

/-- The shape of the notification rows the fan-out writes: a given
recipient, the event, a given message id, and unread. -/
def notif_matches (u : String) (eid mid : Nat) (n : NotifRow) : Bool :=
  n.user_id == u && n.event_id == eid && n.message_id == mid && n.is_read == false

/-- The fan-out writes one row per recipient. -/
theorem fanout_length (eid mid : Nat) (k : Nat) (us : List String) :
    (fanout eid mid k us).length = us.length := by
  induction us generalizing k with
  | nil => rfl
  | cons a t ih => simp [fanout, ih]

/-- Counting fan-out rows for one recipient counts that recipient's
occurrences in the recipient list; the starting id does not matter. -/
theorem fanout_countP (eid mid : Nat) (u : String) (k : Nat) (us : List String) :
    (fanout eid mid k us).countP (notif_matches u eid mid) =
      us.countP (fun v => v == u) := by
  induction us generalizing k with
  | nil => rfl
  | cons a t ih =>
    simp only [fanout, List.countP_cons, ih, notif_matches]
    by_cases ha : a = u <;> simp [ha]

/-- C4: sending a chat message appends exactly one chat row, reports and
inserts exactly one unread notification, carrying the new message id and
the event id, per participant row of the event whose username differs
from the sender, and none for the sender. -/
theorem send_chat_message_notifications (db : DB) (eid : Nat) (sender msg : String) :
    (send_chat_message db eid sender msg).1.chat_messages =
      db.chat_messages ++ [⟨db.next_message_id, eid, sender, msg⟩] ∧
    (send_chat_message db eid sender msg).2 =
      db.participants.countP (fun p => p.event_id == eid && p.username != sender) ∧
    (send_chat_message db eid sender msg).1.notifications.length =
      db.notifications.length +
        db.participants.countP (fun p => p.event_id == eid && p.username != sender) ∧
    (∀ u : String,
      (send_chat_message db eid sender msg).1.notifications.countP
          (notif_matches u eid db.next_message_id) =
        db.notifications.countP (notif_matches u eid db.next_message_id) +
          (if u = sender then 0
           else db.participants.countP (fun p => p.event_id == eid && p.username == u))) := by
  refine ⟨rfl, ?_, ?_, ?_⟩
  · simp [send_chat_message, List.countP_eq_length_filter]
  · simp [send_chat_message, fanout_length, List.countP_eq_length_filter]
  · intro u
    show (db.notifications ++ fanout eid db.next_message_id db.next_notification_id
        ((db.participants.filter (fun p => p.event_id == eid && p.username != sender)).map
          (fun p => p.username))).countP (notif_matches u eid db.next_message_id) = _
    rw [List.countP_append, fanout_countP, List.countP_map]
    by_cases hu : u = sender
    · subst hu
      rw [if_pos rfl]
      have hz : List.countP ((fun v => v == u) ∘ fun p => p.username)
          (List.filter (fun p => p.event_id == eid && p.username != u) db.participants) = 0 := by
        rw [List.countP_eq_zero]
        intro p hp
        have hne := (List.mem_filter.mp hp).2
        simp only [Bool.and_eq_true, bne_iff_ne, ne_eq] at hne
        simp [Function.comp, hne.2]
      rw [hz]
    · rw [if_neg hu]
      rw [List.countP_filter]
      congr 1
      apply List.countP_congr
      intro p hp
      by_cases hpu : p.username = u
      · subst hpu
        simp [Function.comp, bne_iff_ne, hu]
      · simp [Function.comp, hpu]

/-- After marking one user+event pair read, that pair has no unread
rows left. -/
theorem countP_mark_pair_self (l : List NotifRow) (user : String) (eid : Nat) :
    (l.map (fun n =>
        if n.user_id == user && n.event_id == eid then { n with is_read := true } else n)).countP
      (fun n => n.user_id == user && n.event_id == eid && n.is_read == false) = 0 := by
  rw [List.countP_eq_zero]
  intro n hn
  rcases List.mem_map.mp hn with ⟨m, hm, rfl⟩
  by_cases hc : (m.user_id == user && m.event_id == eid) = true
  · simp [hc]
  · rw [if_neg hc]
    simp only [Bool.and_eq_true, beq_iff_eq, not_and] at hc ⊢
    tauto

/-- Marking one user+event pair read leaves the same user's unread
counts for every other event unchanged. -/
theorem countP_mark_pair_other_event (l : List NotifRow) (user : String) (eid e2 : Nat)
    (h : e2 ≠ eid) :
    (l.map (fun n =>
        if n.user_id == user && n.event_id == eid then { n with is_read := true } else n)).countP
      (fun n => n.user_id == user && n.event_id == e2 && n.is_read == false) =
    l.countP (fun n => n.user_id == user && n.event_id == e2 && n.is_read == false) := by
  rw [List.countP_map]
  apply List.countP_congr
  intro n hn
  by_cases hc : (n.user_id == user && n.event_id == eid) = true
  · have he : (n.event_id == e2) = false := by
      simp only [Bool.and_eq_true, beq_iff_eq] at hc
      simp [hc.2, (Ne.symm h)]
    simp [Function.comp, hc, he]
  · simp [Function.comp, hc]

/-- Marking one user+event pair read leaves every other user's unread
counts unchanged. -/
theorem countP_mark_pair_other_user (l : List NotifRow) (user u2 : String) (eid e : Nat)
    (h : u2 ≠ user) :
    (l.map (fun n =>
        if n.user_id == user && n.event_id == eid then { n with is_read := true } else n)).countP
      (fun n => n.user_id == u2 && n.event_id == e && n.is_read == false) =
    l.countP (fun n => n.user_id == u2 && n.event_id == e && n.is_read == false) := by
  rw [List.countP_map]
  apply List.countP_congr
  intro n hn
  by_cases hc : (n.user_id == user && n.event_id == eid) = true
  · have hu : (n.user_id == u2) = false := by
      simp only [Bool.and_eq_true, beq_iff_eq] at hc
      simp [hc.1, (Ne.symm h)]
    simp [Function.comp, hc, hu]
  · simp [Function.comp, hc]

/-- After marking all of a user's rows read, the user has no unread
rows left for any event. -/
theorem countP_mark_all_self (l : List NotifRow) (user : String) (e : Nat) :
    (l.map (fun n =>
        if n.user_id == user then { n with is_read := true } else n)).countP
      (fun n => n.user_id == user && n.event_id == e && n.is_read == false) = 0 := by
  rw [List.countP_eq_zero]
  intro n hn
  rcases List.mem_map.mp hn with ⟨m, hm, rfl⟩
  by_cases hc : (m.user_id == user) = true
  · simp [hc]
  · rw [if_neg hc]
    simp only [Bool.and_eq_true, beq_iff_eq, not_and] at hc ⊢
    tauto

/-- C8: mark-read with an event id reports the number of the user's
notification rows for that event and zeroes exactly that unread count,
leaving the user's other events and every other user untouched; without
an event id it reports the number of all the user's rows and zeroes
every unread count of the user. -/
theorem mark_notifications_read_scoped (db : DB) (user : String) (eid : Nat) :
    (mark_notifications_read db user (some eid)).2 =
      db.notifications.countP (fun n => n.user_id == user && n.event_id == eid) ∧
    unread_count (mark_notifications_read db user (some eid)).1 user eid = 0 ∧
    (∀ e2, e2 ≠ eid →
      unread_count (mark_notifications_read db user (some eid)).1 user e2 =
        unread_count db user e2) ∧
    (∀ u2, u2 ≠ user → ∀ e,
      unread_count (mark_notifications_read db user (some eid)).1 u2 e =
        unread_count db u2 e) ∧
    (mark_notifications_read db user none).2 =
      db.notifications.countP (fun n => n.user_id == user) ∧
    (∀ e, unread_count (mark_notifications_read db user none).1 user e = 0) := by
  refine ⟨rfl, ?_, ?_, ?_, rfl, ?_⟩
  · exact countP_mark_pair_self db.notifications user eid
  · intro e2 he2
    exact countP_mark_pair_other_event db.notifications user eid e2 he2
  · intro u2 hu2 e
    exact countP_mark_pair_other_user db.notifications user u2 eid e hu2
  · intro e
    exact countP_mark_all_self db.notifications user e

/-- A three-notification state used by the mark-read witness: ann is
unread on events 1 and 2, bob is unread on event 1. -/
def sampleNotifDB : DB :=
  { DB.empty with notifications :=
      [⟨1, "ann", 1, 1, false⟩, ⟨2, "ann", 2, 1, false⟩, ⟨3, "bob", 1, 1, false⟩] }

/-- Witness for the mark-read theorem on the three-notification state:
marking event 1 read for ann zeroes her count there, keeps her event 2
count and bob's event 1 count, and the unscoped call zeroes her
remaining count. -/
theorem mark_notifications_read_scoped_witness :
    unread_count (mark_notifications_read sampleNotifDB "ann" (some 1)).1 "ann" 1 = 0 ∧
    unread_count (mark_notifications_read sampleNotifDB "ann" (some 1)).1 "ann" 2 =
      unread_count sampleNotifDB "ann" 2 ∧
    unread_count (mark_notifications_read sampleNotifDB "ann" (some 1)).1 "bob" 1 =
      unread_count sampleNotifDB "bob" 1 ∧
    unread_count (mark_notifications_read sampleNotifDB "ann" none).1 "ann" 2 = 0 :=
  ⟨(mark_notifications_read_scoped sampleNotifDB "ann" 1).2.1,
   (mark_notifications_read_scoped sampleNotifDB "ann" 1).2.2.1 2 (by decide),
   (mark_notifications_read_scoped sampleNotifDB "ann" 1).2.2.2.1 "bob" (by decide) 1,
   (mark_notifications_read_scoped sampleNotifDB "ann" 1).2.2.2.2.2 2⟩
